import Mathlib

/-!
Shallow embedding of the `ai-identity-agent` provisioning service.

The embedded code comes from:
  - `src/main.py`            (FastAPI handlers `provision_user`, `deprovision_user`,
                              `update_user`, helper `get_ai_access_recommendation`,
                              request schema `UserModel`)
  - `src/logic/opa_enforcer.py`   (`enforce_policy`)
  - `src/provision/entra.py`      (`get_graph_token`, `create_entra_user`)
  - `src/provision/sailpoint.py`  (`push_to_sailpoint`)

Python values flowing through the service are modelled by `PyVal`; a Python
call that may raise is modelled as an `Except String` value, the `String`
being the exception message.  Network interactions are parameters: each
embedded function takes the outcome of its HTTP calls as input, so theorems
quantify over every possible behaviour of the external services.
-/

namespace IdentityAgent

/-- JSON-like Python values exchanged with the backends. -/
inductive PyVal where
  | none
  | bool (b : Bool)
  | int (n : Int)
  | str (s : String)
  | list (xs : List PyVal)
  | dict (entries : List (String × PyVal))

/-- Python truthiness, as used by `if not policy_check.get("allow", False)`
and `if not OPENAI_API_KEY`. -/
def truthy : PyVal → Bool
  | PyVal.none => false
  | PyVal.bool b => b
  | PyVal.int n => n != 0
  | PyVal.str s => s != ""
  | PyVal.list xs => !xs.isEmpty
  | PyVal.dict es => !es.isEmpty

/-- Lookup in a Python dict (first matching key). -/
def dictGet (es : List (String × PyVal)) (k : String) : Option PyVal :=
  match es.find? (fun p => p.1 == k) with
  | some p => some p.2
  | Option.none => Option.none

/-- Python `d[k]` on a dict: raises `KeyError` when the key is absent. -/
def dictIndex (es : List (String × PyVal)) (k : String) : Except String PyVal :=
  match dictGet es k with
  | some v => Except.ok v
  | Option.none => Except.error ("KeyError: " ++ k)

/-- Python `v[k]` for a string key: `KeyError` when absent,
`TypeError` when `v` is not a dict. -/
def pyIndexStr (v : PyVal) (k : String) : Except String PyVal :=
  match v with
  | PyVal.dict es => dictIndex es k
  | _ => Except.error "TypeError: object is not subscriptable"

/-- Python `v[i]` for an integer index on a list. -/
def pyIndexNat (v : PyVal) (i : Nat) : Except String PyVal :=
  match v with
  | PyVal.list xs =>
      match xs.get? i with
      | some x => Except.ok x
      | Option.none => Except.error "IndexError: list index out of range"
  | _ => Except.error "TypeError: object is not subscriptable"

/-- Python `v.get(k, default)`: returns the default when the key is absent,
raises `AttributeError` when `v` is not a dict. -/
def pyval_get (v : PyVal) (k : String) (default : PyVal) : Except String PyVal :=
  match v with
  | PyVal.dict es => Except.ok ((dictGet es k).getD default)
  | _ => Except.error "AttributeError: object has no attribute get"

/-- The request schema declared in `src/main.py` (`class UserModel(BaseModel)`):
`email: str` is required, the nine remaining fields are `Optional[str] = None`. -/
structure UserModel where
  email : String
  firstName : Option String := Option.none
  lastName : Option String := Option.none
  jobTitle : Option String := Option.none
  department : Option String := Option.none
  location : Option String := Option.none
  employeeId : Option String := Option.none
  managerId : Option String := Option.none
  costcenter : Option String := Option.none
  region : Option String := Option.none

/-- A pydantic `Optional[str]` value as a Python value. -/
def optVal : Option String → PyVal
  | Option.none => PyVal.none
  | some s => PyVal.str s

/-- `user.dict()` on a `UserModel`: the ten declared fields, in declaration
order, with `None` for unset optional fields. -/
def userDict (u : UserModel) : List (String × PyVal) :=
  [("email", PyVal.str u.email),
   ("firstName", optVal u.firstName),
   ("lastName", optVal u.lastName),
   ("jobTitle", optVal u.jobTitle),
   ("department", optVal u.department),
   ("location", optVal u.location),
   ("employeeId", optVal u.employeeId),
   ("managerId", optVal u.managerId),
   ("costcenter", optVal u.costcenter),
   ("region", optVal u.region)]

/-- FastAPI/pydantic validation of a JSON request body against `UserModel`:
a missing (or non-string) `email` is rejected with a validation error before
the handler runs.  No email-format validation is declared in the schema.
Non-string JSON values for the optional fields are not exercised by any
theorem and are modelled as absent. -/
def parseUserModel (body : List (String × PyVal)) : Except String UserModel :=
  match dictGet body "email" with
  | some (PyVal.str e) =>
      Except.ok
        { email := e
          firstName := (match dictGet body "firstName" with
                        | some (PyVal.str s) => some s | _ => Option.none)
          lastName := (match dictGet body "lastName" with
                       | some (PyVal.str s) => some s | _ => Option.none)
          jobTitle := (match dictGet body "jobTitle" with
                       | some (PyVal.str s) => some s | _ => Option.none)
          department := (match dictGet body "department" with
                         | some (PyVal.str s) => some s | _ => Option.none)
          location := (match dictGet body "location" with
                       | some (PyVal.str s) => some s | _ => Option.none)
          employeeId := (match dictGet body "employeeId" with
                         | some (PyVal.str s) => some s | _ => Option.none)
          managerId := (match dictGet body "managerId" with
                        | some (PyVal.str s) => some s | _ => Option.none)
          costcenter := (match dictGet body "costcenter" with
                         | some (PyVal.str s) => some s | _ => Option.none)
          region := (match dictGet body "region" with
                     | some (PyVal.str s) => some s | _ => Option.none) }
  | _ => Except.error "validation error: field required: email"

/-! ### `src/provision/entra.py` -/

/-- Outcomes of the two HTTP calls made by the Entra adapter: the token
request (`r.json()` of the token POST, or the exception it raised) and the
user-creation request (`(r.status_code, r.json())` of the create POST). -/
structure EntraHttp where
  tokenJson : Except String PyVal
  createResp : Except String (Int × PyVal)

/-- `get_graph_token`: posts the client-credential form and returns
`r.json()["access_token"]`. -/
def get_graph_token (h : EntraHttp) : Except String PyVal :=
  match h.tokenJson with
  | Except.error e => Except.error e
  | Except.ok j => pyIndexStr j "access_token"

/-- `create_entra_user(user)`: fetches a token, builds the Graph payload from
`user["name"]`, `user["nickname"]`, `user["email"]`, `user["temp_password"]`
(in the evaluation order of the Python dict literal), posts it and returns
`(r.status_code, r.json())`.  Any `KeyError` from the payload construction
propagates: the function has no exception handler. -/
def create_entra_user (h : EntraHttp) (user : List (String × PyVal)) :
    Except String (PyVal × PyVal) :=
  match get_graph_token h with
  | Except.error e => Except.error e
  | Except.ok _token =>
    match dictIndex user "name" with
    | Except.error e => Except.error e
    | Except.ok displayName =>
      match dictIndex user "nickname" with
      | Except.error e => Except.error e
      | Except.ok nickname =>
        match dictIndex user "email" with
        | Except.error e => Except.error e
        | Except.ok principal =>
          match dictIndex user "temp_password" with
          | Except.error e => Except.error e
          | Except.ok pw =>
            let _payload := PyVal.dict
              [("accountEnabled", PyVal.bool true),
               ("displayName", displayName),
               ("mailNickname", nickname),
               ("userPrincipalName", principal),
               ("passwordProfile", PyVal.dict
                  [("forceChangePasswordNextSignIn", PyVal.bool true),
                   ("password", pw)])]
            match h.createResp with
            | Except.error e => Except.error e
            | Except.ok resp => Except.ok (PyVal.int resp.1, resp.2)

/-! ### `src/provision/sailpoint.py` -/

/-- Outcome of the SailPoint HTTP call:
`(response.status_code, response.json())` or the exception it raised. -/
structure SailHttp where
  resp : Except String (Int × PyVal)

/-- The `try` body of `push_to_sailpoint`: builds the payload from
`user["name"]`, `user["email"]` (dict-literal evaluation order; the
`.get` accesses cannot raise) and posts it. -/
def push_to_sailpoint_body (h : SailHttp) (user : List (String × PyVal)) :
    Except String (Int × PyVal) :=
  match dictIndex user "name" with
  | Except.error e => Except.error e
  | Except.ok nm =>
    match dictIndex user "email" with
    | Except.error e => Except.error e
    | Except.ok em =>
      let _payload := PyVal.dict
        [("name", nm), ("email", em), ("displayName", nm),
         ("externalId", (dictGet user "employee_id").getD em),
         ("attributes", PyVal.dict
            [("jobTitle", (dictGet user "title").getD PyVal.none),
             ("department", (dictGet user "department").getD PyVal.none),
             ("location", (dictGet user "location").getD PyVal.none),
             ("costcenter", (dictGet user "costcenter").getD PyVal.none)])]
      h.resp

/-- `push_to_sailpoint(user)`: the whole body is wrapped in
`try/except Exception`, converting any failure to `(500, {"error": msg})`;
the function itself never raises. -/
def push_to_sailpoint (h : SailHttp) (user : List (String × PyVal)) :
    Int × PyVal :=
  match push_to_sailpoint_body h user with
  | Except.ok r => r
  | Except.error e => (500, PyVal.dict [("error", PyVal.str e)])

/-! ### `src/logic/opa_enforcer.py` -/

/-- The dict returned by `enforce_policy` from its `except` clause. -/
def failClosed : PyVal :=
  PyVal.dict [("allow", PyVal.bool false),
              ("reason", PyVal.str "OPA policy check failed")]

/-- The `try` body of `enforce_policy`: `response.json().get("result", {})`.
The input is the outcome of `requests.post(...).json()` — an exception from
the POST or from JSON decoding arrives as `Except.error`; calling `.get` on a
non-dict JSON document raises `AttributeError`. -/
def enforce_policy_body (resp : Except String PyVal) : Except String PyVal :=
  match resp with
  | Except.error e => Except.error e
  | Except.ok j => pyval_get j "result" (PyVal.dict [])

/-- `enforce_policy(user_data)`: the body above wrapped in
`try/except Exception`, which logs the error and returns the fail-closed
deny dict.  The second component is the list of log records emitted. -/
def enforce_policy (resp : Except String PyVal) : PyVal × List String :=
  match enforce_policy_body resp with
  | Except.ok v => (v, [])
  | Except.error e => (failClosed, ["OPA policy enforcement failed: " ++ e])

/-! ### `src/main.py` -/

/-- One line of `logs/audit.log`: each constructor is one `logging.*` call
site reachable from the three handlers (all loggers write to the same file
configured by `logging.basicConfig`). -/
inductive LogEntry where
  | receivedRequest (email : String)
  | aiError (msg : String)
  | aiRecommendation (val : PyVal)
  | opaError (msg : String)
  | accessDenied (reason : PyVal)
  | provisioningComplete (entraStatus awsStatus sailResult : PyVal)
  | deprovisioned (email : String) (entraStatus awsStatus sailStatus : PyVal)
  | updated (email : String) (entraStatus awsStatus sailStatus : PyVal)

/-- The log lines that summarise the outcome of one orchestration attempt
(denial, completed create, delete, update), as opposed to the informational
and internal-error lines. -/
def isOutcomeRecord : LogEntry → Bool
  | LogEntry.accessDenied _ => true
  | LogEntry.provisioningComplete _ _ _ => true
  | LogEntry.deprovisioned _ _ _ _ => true
  | LogEntry.updated _ _ _ _ => true
  | _ => false

/-- Which collaborator calls a handler performed, in program order. -/
inductive CallTag where
  | advisory
  | policyGate
  | entraCreate
  | awsCreate
  | sailCreate
  | entraDelete
  | awsDelete
  | sailDelete
  | entraUpdate
  | awsUpdate
  | sailUpdate
deriving DecidableEq

/-- The environment `get_ai_access_recommendation` runs in: the value of
`OPENAI_API_KEY`, whether the `openai` import succeeded, and the outcome of
`openai.ChatCompletion.create(...)`. -/
structure AiEnv where
  apiKey : Option String
  openaiAvailable : Bool
  chatResponse : Except String PyVal

/-- Python truthiness of `os.getenv` output (`None` or a string). -/
def truthyEnv : Option String → Bool
  | Option.none => false
  | some s => s != ""

/-- The `try` body of `get_ai_access_recommendation`:
`response["choices"][0]["message"]["content"]`. -/
def ai_body (env : AiEnv) : Except String PyVal :=
  match env.chatResponse with
  | Except.error e => Except.error e
  | Except.ok resp =>
    match pyIndexStr resp "choices" with
    | Except.error e => Except.error e
    | Except.ok choices =>
      match pyIndexNat choices 0 with
      | Except.error e => Except.error e
      | Except.ok c0 =>
        match pyIndexStr c0 "message" with
        | Except.error e => Except.error e
        | Except.ok msg => pyIndexStr msg "content"

/-- `get_ai_access_recommendation(user_dict)` from `src/main.py`: guards on
the API key and the `openai` import, then wraps the model call in
`try/except`, logging and returning `{"error": str(e)}` on failure.
Returns the advisory value and the log lines it emitted. -/
def get_ai_access_recommendation (env : AiEnv) : PyVal × List LogEntry :=
  if !truthyEnv env.apiKey then
    (PyVal.dict [("error", PyVal.str "Missing OpenAI API key")], [])
  else if !env.openaiAvailable then
    (PyVal.dict [("error", PyVal.str "openai module not found")], [])
  else
    match ai_body env with
    | Except.ok result => (PyVal.dict [("entitlements", result)], [])
    | Except.error e =>
        (PyVal.dict [("error", PyVal.str e)], [LogEntry.aiError e])

/-- The environment of one `POST /provision/user` request: the advisory
environment, the outcome of the OPA call (`requests.post(...).json()`), and
the behaviour of the three backend create calls.  `safe_import` always binds
each backend global to a truthy object (the module or a `mock.Mock()`), so
the `if entra else ...` guards in the handler never take their else branch;
the call behaviours below are whatever those objects do when called:
`entra.create_entra_user` evaluates to a pair or raises, `aws.create_user`
and `sailpoint.push_to_sailpoint` evaluate to a value or raise. -/
structure CreateEnv where
  aiEnv : AiEnv
  opaResponse : Except String PyVal
  entraCall : Except String (PyVal × PyVal)
  awsCall : Except String PyVal
  sailCall : Except String PyVal

/-- What one handler invocation produced: the HTTP-level result (an
uncaught exception is `Except.error`), the audit-log lines appended, and the
collaborator calls made. -/
structure RunResult where
  response : Except String PyVal
  logs : List LogEntry
  calls : List CallTag

/-- `provision_user(user)` from `src/main.py`: logs receipt, runs the
advisory recommendation, logs it, runs the policy check, short-circuits with
`{"status": "denied", "reason": ...}` when `policy_check.get("allow", False)`
is not truthy, otherwise calls the three backend create operations in order
(with no exception handling) and returns the six-field result dict. -/
def provision_user (env : CreateEnv) (u : UserModel) : RunResult :=
  let ai := get_ai_access_recommendation env.aiEnv
  let pol := enforce_policy env.opaResponse
  let baseLogs : List LogEntry :=
    LogEntry.receivedRequest u.email ::
      (ai.2 ++ (LogEntry.aiRecommendation ai.1 ::
        pol.2.map LogEntry.opaError))
  let baseCalls : List CallTag := [CallTag.advisory, CallTag.policyGate]
  match pyval_get pol.1 "allow" (PyVal.bool false) with
  | Except.error e => ⟨Except.error e, baseLogs, baseCalls⟩
  | Except.ok allowVal =>
    if truthy allowVal then
      match env.entraCall with
      | Except.error e =>
          ⟨Except.error e, baseLogs, baseCalls ++ [CallTag.entraCreate]⟩
      | Except.ok entraPair =>
        match env.awsCall with
        | Except.error e =>
            ⟨Except.error e, baseLogs,
             baseCalls ++ [CallTag.entraCreate, CallTag.awsCreate]⟩
        | Except.ok awsStatus =>
          match env.sailCall with
          | Except.error e =>
              ⟨Except.error e, baseLogs,
               baseCalls ++ [CallTag.entraCreate, CallTag.awsCreate,
                             CallTag.sailCreate]⟩
          | Except.ok sailResult =>
              ⟨Except.ok (PyVal.dict
                 [("entra_status", entraPair.1),
                  ("entra_result", entraPair.2),
                  ("aws_status", awsStatus),
                  ("ai_access", ai.1),
                  ("policy_check", pol.1),
                  ("sailpoint_result", sailResult)]),
               baseLogs ++ [LogEntry.provisioningComplete entraPair.1
                              awsStatus sailResult],
               baseCalls ++ [CallTag.entraCreate, CallTag.awsCreate,
                             CallTag.sailCreate]⟩
    else
      match pyval_get pol.1 "reason" (PyVal.str "Policy Violation") with
      | Except.error e => ⟨Except.error e, baseLogs, baseCalls⟩
      | Except.ok reason =>
          ⟨Except.ok (PyVal.dict
             [("status", PyVal.str "denied"), ("reason", reason)]),
           baseLogs ++ [LogEntry.accessDenied reason], baseCalls⟩

/-- The environment of one `POST /deprovision/user` or `POST /update/user`
request: the behaviour of the three backend calls made by the handler. -/
structure MutEnv where
  entraCall : Except String PyVal
  awsCall : Except String PyVal
  sailCall : Except String PyVal

/-- `deprovision_user(user)` from `src/main.py`: calls the three backend
delete operations in order (no policy check, no advisory step, no exception
handling), logs one summary line, returns the three-field result dict. -/
def deprovision_user (env : MutEnv) (u : UserModel) : RunResult :=
  match env.entraCall with
  | Except.error e => ⟨Except.error e, [], [CallTag.entraDelete]⟩
  | Except.ok entraStatus =>
    match env.awsCall with
    | Except.error e =>
        ⟨Except.error e, [], [CallTag.entraDelete, CallTag.awsDelete]⟩
    | Except.ok awsStatus =>
      match env.sailCall with
      | Except.error e =>
          ⟨Except.error e, [],
           [CallTag.entraDelete, CallTag.awsDelete, CallTag.sailDelete]⟩
      | Except.ok sailStatus =>
          ⟨Except.ok (PyVal.dict
             [("entra_status", entraStatus),
              ("aws_status", awsStatus),
              ("sailpoint_status", sailStatus)]),
           [LogEntry.deprovisioned u.email entraStatus awsStatus sailStatus],
           [CallTag.entraDelete, CallTag.awsDelete, CallTag.sailDelete]⟩

/-- `update_user(user)` from `src/main.py`: calls the three backend update
operations in order (no policy check, no advisory step, no exception
handling), logs one summary line, returns the three-field result dict. -/
def update_user (env : MutEnv) (u : UserModel) : RunResult :=
  match env.entraCall with
  | Except.error e => ⟨Except.error e, [], [CallTag.entraUpdate]⟩
  | Except.ok entraStatus =>
    match env.awsCall with
    | Except.error e =>
        ⟨Except.error e, [], [CallTag.entraUpdate, CallTag.awsUpdate]⟩
    | Except.ok awsStatus =>
      match env.sailCall with
      | Except.error e =>
          ⟨Except.error e, [],
           [CallTag.entraUpdate, CallTag.awsUpdate, CallTag.sailUpdate]⟩
      | Except.ok sailStatus =>
          ⟨Except.ok (PyVal.dict
             [("entra_status", entraStatus),
              ("aws_status", awsStatus),
              ("sailpoint_status", sailStatus)]),
           [LogEntry.updated u.email entraStatus awsStatus sailStatus],
           [CallTag.entraUpdate, CallTag.awsUpdate, CallTag.sailUpdate]⟩

/-- The `/provision/user` endpoint: FastAPI validates the body against
`UserModel` before the handler runs; a validation failure returns an error
response with no handler execution (no logs, no collaborator calls). -/
def handle_provision (env : CreateEnv) (body : List (String × PyVal)) :
    RunResult :=
  match parseUserModel body with
  | Except.error e => ⟨Except.error e, [], []⟩
  | Except.ok u => provision_user env u

/-- The `/deprovision/user` endpoint with FastAPI body validation. -/
def handle_deprovision (env : MutEnv) (body : List (String × PyVal)) :
    RunResult :=
  match parseUserModel body with
  | Except.error e => ⟨Except.error e, [], []⟩
  | Except.ok u => deprovision_user env u

/-- The `/update/user` endpoint with FastAPI body validation. -/
def handle_update (env : MutEnv) (body : List (String × PyVal)) :
    RunResult :=
  match parseUserModel body with
  | Except.error e => ⟨Except.error e, [], []⟩
  | Except.ok u => update_user env u

/-! ### Concrete fixtures used by counterexamples and witnesses -/

/-- A schema-valid profile: only the required `email` field is set. -/
def u0 : UserModel := { email := "alice@example.com" }

/-- An OPA response whose policy result explicitly allows. -/
def allowResponse : Except String PyVal :=
  Except.ok (PyVal.dict
    [("result", PyVal.dict [("allow", PyVal.bool true)])])

/-- An advisory environment with no API key configured: the recommendation
short-circuits to an error dict without calling the model. -/
def aiOff : AiEnv :=
  { apiKey := Option.none
    openaiAvailable := false
    chatResponse := Except.error "unused" }

/-- Environment in which the Entra create call raises (the `KeyError` the
real adapter produces on every schema-valid profile) while the other two
backends would succeed. -/
def envEntraRaises : CreateEnv :=
  { aiEnv := aiOff
    opaResponse := allowResponse
    entraCall := Except.error "KeyError: name"
    awsCall := Except.ok (PyVal.str "success")
    sailCall := Except.ok (PyVal.str "User pushed") }

/-- Environment in which the OPA call itself raises. -/
def envOpaDown : CreateEnv :=
  { aiEnv := aiOff
    opaResponse := Except.error "ConnectionError: OPA unreachable"
    entraCall := Except.ok (PyVal.str "success", PyVal.str "User created")
    awsCall := Except.ok (PyVal.str "success")
    sailCall := Except.ok (PyVal.str "User pushed") }

/-! ### Claim C1 -/

/-- Claim C1, refuted at a concrete input: with the policy allowing and the
Entra create call raising `KeyError: name` while the other two backends
would succeed, the exception IS re-raised to the caller (the response is the
uncaught exception, not a result with an error entry) and the other two
backends are never reached, so their outcomes are absent. -/
theorem entra_exception_propagates_cex :
    (provision_user envEntraRaises u0).response = Except.error "KeyError: name"
    ∧ CallTag.awsCreate ∉ (provision_user envEntraRaises u0).calls
    ∧ CallTag.sailCreate ∉ (provision_user envEntraRaises u0).calls := by
  refine ⟨rfl, ?_, ?_⟩ <;> decide

/-- Environment in which the Entra create call returns but the AWS create
call raises, while SailPoint would succeed. -/
def envAwsRaises : CreateEnv :=
  { aiEnv := aiOff
    opaResponse := allowResponse
    entraCall := Except.ok (PyVal.str "success", PyVal.str "User created")
    awsCall := Except.error "AttributeError: module provision.aws has no attribute create_user"
    sailCall := Except.ok (PyVal.str "User pushed") }

/-- Claim C1 as amended: the orchestrator installs no exception handling
around the backend create calls — when the Entra call raises on an allowed
request, the exception propagates to the caller and the AWS and SailPoint
calls are never made; likewise, when the Entra call returns but the AWS
call raises, the exception propagates and the SailPoint call is never made.
Only the SailPoint adapter isolates its own failures, converting any
exception in its body to the outcome `(500, dict [(error, message)])`
instead of raising. -/
theorem adapter_failure_isolation_amended :
    (∀ (env : CreateEnv) (u : UserModel) (e : String) (a : PyVal),
       pyval_get (enforce_policy env.opaResponse).1 "allow" (PyVal.bool false)
         = Except.ok a →
       truthy a = true →
       env.entraCall = Except.error e →
       (provision_user env u).response = Except.error e
         ∧ CallTag.awsCreate ∉ (provision_user env u).calls
         ∧ CallTag.sailCreate ∉ (provision_user env u).calls)
    ∧ (∀ (env : CreateEnv) (u : UserModel) (e : String) (a : PyVal)
         (p : PyVal × PyVal),
       pyval_get (enforce_policy env.opaResponse).1 "allow" (PyVal.bool false)
         = Except.ok a →
       truthy a = true →
       env.entraCall = Except.ok p →
       env.awsCall = Except.error e →
       (provision_user env u).response = Except.error e
         ∧ CallTag.sailCreate ∉ (provision_user env u).calls)
    ∧ (∀ (h : SailHttp) (user : List (String × PyVal)) (msg : String),
       push_to_sailpoint_body h user = Except.error msg →
       push_to_sailpoint h user = (500, PyVal.dict [("error", PyVal.str msg)])) := by
  refine ⟨?_, ?_, ?_⟩
  · intro env u e a hA hT hE
    simp only [provision_user, hA, hT, hE]
    simp
  · intro env u e a p hA hT hE hW
    simp only [provision_user, hA, hT, hE, hW]
    simp
  · intro h user msg hm
    simp [push_to_sailpoint, hm]

/-- Witness for the amended C1 theorem: the Entra-raises case and the
AWS-raises case, each at its concrete environment. -/
theorem adapter_failure_isolation_witness :
    ((provision_user envEntraRaises u0).response = Except.error "KeyError: name"
     ∧ CallTag.awsCreate ∉ (provision_user envEntraRaises u0).calls
     ∧ CallTag.sailCreate ∉ (provision_user envEntraRaises u0).calls)
    ∧ ((provision_user envAwsRaises u0).response =
         Except.error "AttributeError: module provision.aws has no attribute create_user"
       ∧ CallTag.sailCreate ∉ (provision_user envAwsRaises u0).calls) :=
  ⟨adapter_failure_isolation_amended.1 envEntraRaises u0 "KeyError: name"
     (PyVal.bool true) rfl rfl rfl,
   adapter_failure_isolation_amended.2.1 envAwsRaises u0
     "AttributeError: module provision.aws has no attribute create_user"
     (PyVal.bool true) (PyVal.str "success", PyVal.str "User created")
     rfl rfl rfl rfl⟩

/-! ### Claim C2 -/

/-- Claim C2: whenever the Policy Gate call raises (network failure, JSON
failure, unreachable service), `enforce_policy` returns the fail-closed deny
dict, the response to the caller is the denial with the failure reason, and
no backend create call is made — the outcome is never allowed. -/
theorem policy_gate_fail_closed :
    ∀ (env : CreateEnv) (u : UserModel) (e : String),
      env.opaResponse = Except.error e →
      (enforce_policy env.opaResponse).1 = failClosed
      ∧ (provision_user env u).response =
          Except.ok (PyVal.dict
            [("status", PyVal.str "denied"),
             ("reason", PyVal.str "OPA policy check failed")])
      ∧ CallTag.entraCreate ∉ (provision_user env u).calls
      ∧ CallTag.awsCreate ∉ (provision_user env u).calls
      ∧ CallTag.sailCreate ∉ (provision_user env u).calls := by
  intro env u e h
  have hep : enforce_policy env.opaResponse =
      (failClosed, ["OPA policy enforcement failed: " ++ e]) := by
    simp [enforce_policy, enforce_policy_body, h]
  refine ⟨by simp [hep], ?_, ?_, ?_, ?_⟩ <;>
    · simp only [provision_user, hep]
      simp [pyval_get, failClosed, dictGet, truthy]
      try decide

/-- Witness for C2 at the concrete environment with the OPA call raising. -/
theorem policy_gate_fail_closed_witness :
    (enforce_policy envOpaDown.opaResponse).1 = failClosed
    ∧ (provision_user envOpaDown u0).response =
        Except.ok (PyVal.dict
          [("status", PyVal.str "denied"),
           ("reason", PyVal.str "OPA policy check failed")])
    ∧ CallTag.entraCreate ∉ (provision_user envOpaDown u0).calls
    ∧ CallTag.awsCreate ∉ (provision_user envOpaDown u0).calls
    ∧ CallTag.sailCreate ∉ (provision_user envOpaDown u0).calls :=
  policy_gate_fail_closed envOpaDown u0 "ConnectionError: OPA unreachable" rfl

/-! ### Claim C3 -/

/-- A working advisory environment: key configured, module importable, and a
well-formed model response. -/
def aiWorking : AiEnv :=
  { apiKey := some "sk-test"
    openaiAvailable := true
    chatResponse := Except.ok (PyVal.dict
      [("choices", PyVal.list
         [PyVal.dict [("message", PyVal.dict
            [("content", PyVal.str "recommended entitlements")])]])]) }

/-- Environment in which the policy explicitly denies with a reason. -/
def envDenied : CreateEnv :=
  { aiEnv := aiWorking
    opaResponse := Except.ok (PyVal.dict
      [("result", PyVal.dict
         [("allow", PyVal.bool false),
          ("reason", PyVal.str "region blocked")])])
    entraCall := Except.ok (PyVal.str "success", PyVal.str "User created")
    awsCall := Except.ok (PyVal.str "success")
    sailCall := Except.ok (PyVal.str "User pushed") }

/-- Claim C3, refuted at a concrete input: on a Create request that the
Policy Gate denies, the Advisory Recommender IS invoked (the handler runs it
unconditionally before the policy check), contrary to the claim that it is
not; the rest of the claim (denial-only response) does hold. -/
theorem advisory_runs_when_denied_cex :
    CallTag.advisory ∈ (provision_user envDenied u0).calls
    ∧ (provision_user envDenied u0).response =
        Except.ok (PyVal.dict
          [("status", PyVal.str "denied"),
           ("reason", PyVal.str "region blocked")]) :=
  ⟨by decide, rfl⟩

/-- Claim C3 as amended: on every Create request the Policy Gate denies, the
Advisory Recommender has already been invoked (it runs before the policy
check), no backend create operation is invoked, and the response carries
only the denial status and the policy reason — zero backend outcomes. -/
theorem denied_create_flow_amended :
    ∀ (env : CreateEnv) (u : UserModel) (a r : PyVal),
      pyval_get (enforce_policy env.opaResponse).1 "allow" (PyVal.bool false)
        = Except.ok a →
      truthy a = false →
      pyval_get (enforce_policy env.opaResponse).1 "reason"
        (PyVal.str "Policy Violation") = Except.ok r →
      (provision_user env u).response =
          Except.ok (PyVal.dict
            [("status", PyVal.str "denied"), ("reason", r)])
      ∧ CallTag.advisory ∈ (provision_user env u).calls
      ∧ CallTag.entraCreate ∉ (provision_user env u).calls
      ∧ CallTag.awsCreate ∉ (provision_user env u).calls
      ∧ CallTag.sailCreate ∉ (provision_user env u).calls := by
  intro env u a r hA hT hR
  simp only [provision_user, hA, hT, hR]
  simp

/-- Witness for the amended C3 theorem at the concrete denying environment. -/
theorem denied_create_flow_witness :
    (provision_user envDenied u0).response =
        Except.ok (PyVal.dict
          [("status", PyVal.str "denied"),
           ("reason", PyVal.str "region blocked")])
    ∧ CallTag.advisory ∈ (provision_user envDenied u0).calls
    ∧ CallTag.entraCreate ∉ (provision_user envDenied u0).calls
    ∧ CallTag.awsCreate ∉ (provision_user envDenied u0).calls
    ∧ CallTag.sailCreate ∉ (provision_user envDenied u0).calls :=
  denied_create_flow_amended envDenied u0 (PyVal.bool false)
    (PyVal.str "region blocked") rfl rfl rfl

/-! ### Claim C4 -/

/-- Environment for a fully successful Create: policy allows, all three
backend calls return, advisory short-circuits without logging. -/
def envClean : CreateEnv :=
  { aiEnv := aiOff
    opaResponse := allowResponse
    entraCall := Except.ok (PyVal.str "success", PyVal.str "User created")
    awsCall := Except.ok (PyVal.str "success")
    sailCall := Except.ok (PyVal.str "User pushed") }

/-- The advisory step only ever logs internal-error lines, never an
outcome-summary record. -/
theorem ai_logs_not_outcome (env : AiEnv) :
    (get_ai_access_recommendation env).2.filter isOutcomeRecord = [] := by
  unfold get_ai_access_recommendation
  cases truthyEnv env.apiKey <;> cases env.openaiAvailable <;>
    cases ai_body env <;> simp [isOutcomeRecord]

/-- The policy step only ever logs internal-error lines, never an
outcome-summary record. -/
theorem opa_logs_not_outcome (r : Except String PyVal) :
    ((enforce_policy r).2.map LogEntry.opaError).filter isOutcomeRecord = [] := by
  unfold enforce_policy
  cases enforce_policy_body r <;> simp [isOutcomeRecord]

/-- Claim C4, refuted at a concrete input: a fully successful Create request
appends three lines to the audit log (request receipt, advisory
recommendation, completion summary), not exactly one. -/
theorem audit_single_record_cex :
    (provision_user envClean u0).logs.length = 3
    ∧ ¬ (provision_user envClean u0).logs.length = 1 :=
  ⟨rfl, by decide⟩

/-- Claim C4 as amended: every accepted request whose handler runs to
completion appends exactly one outcome-summary record to the audit log (the
denial, completion, deprovision or update line); Create requests additionally
append informational lines (receipt, advisory recommendation, internal
errors).  A request rejected for missing email appends zero records on every
endpoint. -/
theorem audit_outcome_records_amended :
    (∀ (env : CreateEnv) (u : UserModel) (a r : PyVal),
       pyval_get (enforce_policy env.opaResponse).1 "allow" (PyVal.bool false)
         = Except.ok a →
       truthy a = false →
       pyval_get (enforce_policy env.opaResponse).1 "reason"
         (PyVal.str "Policy Violation") = Except.ok r →
       ((provision_user env u).logs.filter isOutcomeRecord).length = 1)
    ∧ (∀ (env : CreateEnv) (u : UserModel) (a : PyVal)
         (p : PyVal × PyVal) (w s : PyVal),
       pyval_get (enforce_policy env.opaResponse).1 "allow" (PyVal.bool false)
         = Except.ok a →
       truthy a = true →
       env.entraCall = Except.ok p →
       env.awsCall = Except.ok w →
       env.sailCall = Except.ok s →
       ((provision_user env u).logs.filter isOutcomeRecord).length = 1)
    ∧ (∀ (env : MutEnv) (u : UserModel) (v1 v2 v3 : PyVal),
       env.entraCall = Except.ok v1 →
       env.awsCall = Except.ok v2 →
       env.sailCall = Except.ok v3 →
       ((deprovision_user env u).logs.filter isOutcomeRecord).length = 1
       ∧ ((update_user env u).logs.filter isOutcomeRecord).length = 1)
    ∧ (∀ (cenv : CreateEnv) (menv : MutEnv) (body : List (String × PyVal)),
       dictGet body "email" = Option.none →
       (handle_provision cenv body).logs = []
       ∧ (handle_deprovision menv body).logs = []
       ∧ (handle_update menv body).logs = []) := by
  refine ⟨?_, ?_, ?_, ?_⟩
  · intro env u a r hA hT hR
    simp only [provision_user, hA, hT, hR]
    simp [List.filter_append, ai_logs_not_outcome, opa_logs_not_outcome,
          isOutcomeRecord]
  · intro env u a p w s hA hT hE hW hS
    simp only [provision_user, hA, hT, hE, hW, hS]
    simp [List.filter_append, ai_logs_not_outcome, opa_logs_not_outcome,
          isOutcomeRecord]
  · intro env u v1 v2 v3 hE hW hS
    refine ⟨?_, ?_⟩
    · simp [deprovision_user, hE, hW, hS, isOutcomeRecord]
    · simp [update_user, hE, hW, hS, isOutcomeRecord]
  · intro cenv menv body h
    refine ⟨?_, ?_, ?_⟩ <;>
      simp [handle_provision, handle_deprovision, handle_update,
            parseUserModel, h]

/-- Witness for the amended C4 theorem: the completed-create conjunct at the
concrete clean environment. -/
theorem audit_outcome_records_witness :
    ((provision_user envClean u0).logs.filter isOutcomeRecord).length = 1 :=
  audit_outcome_records_amended.2.1 envClean u0 (PyVal.bool true)
    (PyVal.str "success", PyVal.str "User created") (PyVal.str "success")
    (PyVal.str "User pushed") rfl rfl rfl rfl rfl

/-! ### Claim C5 -/

/-- Drop the `ai_access` entry from a successful response, leaving every
other field (the backend outcomes and the policy decision) intact. -/
def stripAi : Except String PyVal → Except String PyVal
  | Except.ok (PyVal.dict es) =>
      Except.ok (PyVal.dict (es.filter (fun p => p.1 != "ai_access")))
  | r => r

/-- Claim C5: every failure of the Advisory Recommender (missing API key,
missing module, transport error, malformed model response) is captured as an
error value inside the advisory dict — the function always returns a
one-entry dict, never an exception — and the advisory environment has no
influence on anything else: two runs differing only in the advisory
environment make the same collaborator calls and produce the same response
apart from the `ai_access` field (so no backend outcome changes and the
workflow is never aborted). -/
theorem advisory_failure_contained :
    (∀ env : AiEnv,
       (∃ e, (get_ai_access_recommendation env).1 =
          PyVal.dict [("error", PyVal.str e)])
       ∨ (∃ v, (get_ai_access_recommendation env).1 =
          PyVal.dict [("entitlements", v)]))
    ∧ (∀ (a1 a2 : AiEnv) (r : Except String PyVal)
         (ec : Except String (PyVal × PyVal)) (ac sc : Except String PyVal)
         (u : UserModel),
       stripAi (provision_user ⟨a1, r, ec, ac, sc⟩ u).response =
         stripAi (provision_user ⟨a2, r, ec, ac, sc⟩ u).response
       ∧ (provision_user ⟨a1, r, ec, ac, sc⟩ u).calls =
         (provision_user ⟨a2, r, ec, ac, sc⟩ u).calls) := by
  constructor
  · intro env
    cases hK : truthyEnv env.apiKey with
    | false =>
        exact Or.inl ⟨"Missing OpenAI API key",
          by simp [get_ai_access_recommendation, hK]⟩
    | true =>
      cases hO : env.openaiAvailable with
      | false =>
          exact Or.inl ⟨"openai module not found",
            by simp [get_ai_access_recommendation, hK, hO]⟩
      | true =>
        cases hB : ai_body env with
        | error e =>
            exact Or.inl ⟨e, by simp [get_ai_access_recommendation, hK, hO, hB]⟩
        | ok v =>
            exact Or.inr ⟨v, by simp [get_ai_access_recommendation, hK, hO, hB]⟩
  · intro a1 a2 r ec ac sc u
    cases hA : pyval_get (enforce_policy r).1 "allow" (PyVal.bool false) with
    | error e => refine ⟨?_, ?_⟩ <;> simp [provision_user, hA, stripAi]
    | ok a =>
      cases hT : truthy a with
      | false =>
        cases hR : pyval_get (enforce_policy r).1 "reason"
            (PyVal.str "Policy Violation") with
        | error e =>
            refine ⟨?_, ?_⟩ <;> simp [provision_user, hA, hT, hR, stripAi]
        | ok rr =>
            refine ⟨?_, ?_⟩ <;> simp [provision_user, hA, hT, hR, stripAi]
      | true =>
        cases ec with
        | error e => refine ⟨?_, ?_⟩ <;> simp [provision_user, hA, hT, stripAi]
        | ok p =>
          cases ac with
          | error e => refine ⟨?_, ?_⟩ <;> simp [provision_user, hA, hT, stripAi]
          | ok w =>
            cases sc with
            | error e =>
                refine ⟨?_, ?_⟩ <;> simp [provision_user, hA, hT, stripAi]
            | ok s =>
                refine ⟨?_, ?_⟩ <;> simp [provision_user, hA, hT, stripAi]

/-! ### Claim C6 -/

/-- A request body whose email is present but not a well-formed address. -/
def badEmailBody : List (String × PyVal) := [("email", PyVal.str "not-an-email")]

/-- Claim C6, refuted at a concrete input: a body whose `email` is the
malformed string "not-an-email" passes validation (the schema declares
`email: str` with no format check), the handler runs, the Advisory
Recommender is invoked and audit lines are written — the request is not
rejected. -/
theorem malformed_email_accepted_cex :
    parseUserModel badEmailBody = Except.ok { email := "not-an-email" }
    ∧ CallTag.advisory ∈ (handle_provision envDenied badEmailBody).calls
    ∧ (handle_provision envDenied badEmailBody).logs.length = 3 :=
  ⟨rfl, by decide, rfl⟩

/-- Claim C6 as amended: a request body missing the `email` field is
rejected by schema validation before the handler runs — no Policy Gate,
Advisory Recommender or Backend Adapter call is made and no audit record is
written, on all three endpoints.  Emails are not format-validated: any
string value passes. -/
theorem missing_email_rejected_amended :
    ∀ (cenv : CreateEnv) (menv : MutEnv) (body : List (String × PyVal)),
      dictGet body "email" = Option.none →
      handle_provision cenv body =
        ⟨Except.error "validation error: field required: email", [], []⟩
      ∧ handle_deprovision menv body =
        ⟨Except.error "validation error: field required: email", [], []⟩
      ∧ handle_update menv body =
        ⟨Except.error "validation error: field required: email", [], []⟩ := by
  intro cenv menv body h
  refine ⟨?_, ?_, ?_⟩ <;>
    simp [handle_provision, handle_deprovision, handle_update,
          parseUserModel, h]

/-- Witness for the amended C6 theorem: a body with no email field at all. -/
theorem missing_email_rejected_witness :
    handle_provision envClean [("region", PyVal.str "EU")] =
      ⟨Except.error "validation error: field required: email", [], []⟩
    ∧ handle_deprovision ⟨Except.ok (PyVal.str "success"),
        Except.ok (PyVal.str "success"), Except.ok (PyVal.str "success")⟩
        [("region", PyVal.str "EU")] =
      ⟨Except.error "validation error: field required: email", [], []⟩
    ∧ handle_update ⟨Except.ok (PyVal.str "success"),
        Except.ok (PyVal.str "success"), Except.ok (PyVal.str "success")⟩
        [("region", PyVal.str "EU")] =
      ⟨Except.error "validation error: field required: email", [], []⟩ :=
  missing_email_rejected_amended envClean
    ⟨Except.ok (PyVal.str "success"), Except.ok (PyVal.str "success"),
     Except.ok (PyVal.str "success")⟩
    [("region", PyVal.str "EU")] rfl

/-! ### Claim C7 -/

/-- Claim C7: Update and Delete requests never invoke the Policy Gate or the
Advisory Recommender; and whenever the three backend calls return (as they
always do in a startable deployment, where the adapter modules are mocks),
each backend operation is invoked and all three outcomes appear in the
response. -/
theorem update_delete_flow :
    (∀ (env : MutEnv) (u : UserModel),
       CallTag.advisory ∉ (deprovision_user env u).calls
       ∧ CallTag.policyGate ∉ (deprovision_user env u).calls
       ∧ CallTag.advisory ∉ (update_user env u).calls
       ∧ CallTag.policyGate ∉ (update_user env u).calls)
    ∧ (∀ (env : MutEnv) (u : UserModel) (v1 v2 v3 : PyVal),
       env.entraCall = Except.ok v1 →
       env.awsCall = Except.ok v2 →
       env.sailCall = Except.ok v3 →
       (deprovision_user env u).calls =
         [CallTag.entraDelete, CallTag.awsDelete, CallTag.sailDelete]
       ∧ (deprovision_user env u).response =
         Except.ok (PyVal.dict
           [("entra_status", v1), ("aws_status", v2),
            ("sailpoint_status", v3)])
       ∧ (update_user env u).calls =
         [CallTag.entraUpdate, CallTag.awsUpdate, CallTag.sailUpdate]
       ∧ (update_user env u).response =
         Except.ok (PyVal.dict
           [("entra_status", v1), ("aws_status", v2),
            ("sailpoint_status", v3)])) := by
  constructor
  · intro env u
    refine ⟨?_, ?_, ?_, ?_⟩ <;>
      · rcases env with ⟨ec, ac, sc⟩
        cases ec <;> cases ac <;> cases sc <;>
          simp [deprovision_user, update_user]
  · intro env u v1 v2 v3 hE hW hS
    refine ⟨?_, ?_, ?_, ?_⟩ <;>
      simp [deprovision_user, update_user, hE, hW, hS]

/-- Witness for C7 with all three backend calls returning a value. -/
theorem update_delete_flow_witness :
    (deprovision_user ⟨Except.ok (PyVal.str "success"),
        Except.ok (PyVal.str "success"), Except.ok (PyVal.str "success")⟩
        u0).calls =
      [CallTag.entraDelete, CallTag.awsDelete, CallTag.sailDelete]
    ∧ (deprovision_user ⟨Except.ok (PyVal.str "success"),
        Except.ok (PyVal.str "success"), Except.ok (PyVal.str "success")⟩
        u0).response =
      Except.ok (PyVal.dict
        [("entra_status", PyVal.str "success"),
         ("aws_status", PyVal.str "success"),
         ("sailpoint_status", PyVal.str "success")])
    ∧ (update_user ⟨Except.ok (PyVal.str "success"),
        Except.ok (PyVal.str "success"), Except.ok (PyVal.str "success")⟩
        u0).calls =
      [CallTag.entraUpdate, CallTag.awsUpdate, CallTag.sailUpdate]
    ∧ (update_user ⟨Except.ok (PyVal.str "success"),
        Except.ok (PyVal.str "success"), Except.ok (PyVal.str "success")⟩
        u0).response =
      Except.ok (PyVal.dict
        [("entra_status", PyVal.str "success"),
         ("aws_status", PyVal.str "success"),
         ("sailpoint_status", PyVal.str "success")]) :=
  update_delete_flow.2
    ⟨Except.ok (PyVal.str "success"), Except.ok (PyVal.str "success"),
     Except.ok (PyVal.str "success")⟩
    u0 (PyVal.str "success") (PyVal.str "success") (PyVal.str "success")
    rfl rfl rfl

/-! ### Claim C8 -/

/-- The keys of a Python dict result, in order; non-dicts have none. -/
def pyKeys : PyVal → List String
  | PyVal.dict es => es.map (fun p => p.1)
  | _ => []

/-- Claim C8: the key order of every non-exceptional `/provision/user`
response is one of two fixed lists written in the source — the denial shape
or the six-field success shape — independent of the request and of the
backend behaviours, so two identical requests always produce identically
ordered result structures (the handler is sequential and deterministic;
there is no completion-order dependence). -/
theorem response_key_order_fixed :
    ∀ (env : CreateEnv) (u : UserModel) (d : PyVal),
      (provision_user env u).response = Except.ok d →
      pyKeys d = ["status", "reason"]
      ∨ pyKeys d = ["entra_status", "entra_result", "aws_status",
                    "ai_access", "policy_check", "sailpoint_result"] := by
  intro env u d hd
  rcases env with ⟨ae, r, ec, ac, sc⟩
  cases hA : pyval_get (enforce_policy r).1 "allow" (PyVal.bool false) with
  | error e => simp [provision_user, hA] at hd
  | ok a =>
    cases hT : truthy a with
    | false =>
      cases hR : pyval_get (enforce_policy r).1 "reason"
          (PyVal.str "Policy Violation") with
      | error e => simp [provision_user, hA, hT, hR] at hd
      | ok rr =>
          simp [provision_user, hA, hT, hR] at hd
          subst hd
          exact Or.inl rfl
    | true =>
      cases ec with
      | error e => simp [provision_user, hA, hT] at hd
      | ok p =>
        cases ac with
        | error e => simp [provision_user, hA, hT] at hd
        | ok w =>
          cases sc with
          | error e => simp [provision_user, hA, hT] at hd
          | ok s =>
              simp [provision_user, hA, hT] at hd
              subst hd
              exact Or.inr rfl

/-- Witness for C8 at the clean environment: the successful response has the
fixed six-key order. -/
theorem response_key_order_fixed_witness :
    pyKeys (PyVal.dict
      [("entra_status", PyVal.str "success"),
       ("entra_result", PyVal.str "User created"),
       ("aws_status", PyVal.str "success"),
       ("ai_access", PyVal.dict [("error", PyVal.str "Missing OpenAI API key")]),
       ("policy_check", PyVal.dict [("allow", PyVal.bool true)]),
       ("sailpoint_result", PyVal.str "User pushed")]) = ["status", "reason"]
    ∨ pyKeys (PyVal.dict
      [("entra_status", PyVal.str "success"),
       ("entra_result", PyVal.str "User created"),
       ("aws_status", PyVal.str "success"),
       ("ai_access", PyVal.dict [("error", PyVal.str "Missing OpenAI API key")]),
       ("policy_check", PyVal.dict [("allow", PyVal.bool true)]),
       ("sailpoint_result", PyVal.str "User pushed")]) =
      ["entra_status", "entra_result", "aws_status",
       "ai_access", "policy_check", "sailpoint_result"] :=
  response_key_order_fixed envClean u0 _ rfl

/-! ### Claim C9 -/

/-- A `UserModel` dict never has a "name" key: the schema's ten fields are
email, firstName, lastName, jobTitle, department, location, employeeId,
managerId, costcenter, region. -/
theorem userDict_no_name (u : UserModel) :
    dictIndex (userDict u) "name" = Except.error "KeyError: name" := rfl

/-- Claim C9: for every profile valid against the `UserModel` schema, the
Entra adapter's `create_entra_user` can never succeed — whatever the token
and Graph endpoints answer — and as soon as the token call succeeds, the
failure is precisely the `KeyError` raised while building the payload from
the absent `name` field. -/
theorem entra_create_always_fails :
    (∀ (h : EntraHttp) (u : UserModel) (v : PyVal × PyVal),
       create_entra_user h (userDict u) ≠ Except.ok v)
    ∧ (∀ (h : EntraHttp) (u : UserModel) (t : PyVal),
       get_graph_token h = Except.ok t →
       create_entra_user h (userDict u) = Except.error "KeyError: name") := by
  constructor
  · intro h u v hv
    unfold create_entra_user at hv
    cases hg : get_graph_token h with
    | error e => rw [hg] at hv; exact Except.noConfusion hv
    | ok t => rw [hg, userDict_no_name] at hv; exact Except.noConfusion hv
  · intro h u t hg
    unfold create_entra_user
    rw [hg, userDict_no_name]

/-- Witness for C9 with a token endpoint returning a well-formed token. -/
theorem entra_create_always_fails_witness :
    create_entra_user
      ⟨Except.ok (PyVal.dict [("access_token", PyVal.str "tok")]),
       Except.ok (201, PyVal.dict [])⟩
      (userDict u0) = Except.error "KeyError: name" :=
  entra_create_always_fails.2
    ⟨Except.ok (PyVal.dict [("access_token", PyVal.str "tok")]),
     Except.ok (201, PyVal.dict [])⟩
    u0 (PyVal.str "tok") rfl

/-! ### Claim C10 -/

/-- An OPA response whose policy result carries the truthy non-boolean
`allow` value `1`. -/
def truthyOneResponse : Except String PyVal :=
  Except.ok (PyVal.dict
    [("result", PyVal.dict [("allow", PyVal.int 1)])])

/-- Environment in which the policy result is `allow = 1`. -/
def envTruthyOne : CreateEnv :=
  { aiEnv := aiOff
    opaResponse := truthyOneResponse
    entraCall := Except.ok (PyVal.str "success", PyVal.str "User created")
    awsCall := Except.ok (PyVal.str "success")
    sailCall := Except.ok (PyVal.str "User pushed") }

/-- Claim C10, refuted at a concrete input: when the policy result is
`allow = 1` — a mapping that lacks `allow: true` — `enforce_policy` returns
it verbatim, the orchestrator's truthiness test passes, and provisioning
proceeds to the backends; an explicit boolean `true` is not required. -/
theorem truthy_allow_proceeds_cex :
    (enforce_policy truthyOneResponse).1 = PyVal.dict [("allow", PyVal.int 1)]
    ∧ (PyVal.int 1 ≠ PyVal.bool true)
    ∧ CallTag.entraCreate ∈ (provision_user envTruthyOne u0).calls :=
  ⟨rfl, fun h => PyVal.noConfusion h, by decide⟩

/-- Claim C10 as amended: `enforce_policy` is total — every exception of its
body is converted into the fail-closed deny dict, never re-raised; when the
policy service responds with a JSON object lacking a `result` key, it
returns the empty dict, whose `allow` lookup yields `False` and hence a
denial; and the orchestrator proceeds to the backends exactly when the
`allow` value of the policy mapping is TRUTHY — any truthy value, not only
the boolean `true`, lets provisioning proceed. -/
theorem enforce_policy_total_amended :
    (∀ r : Except String PyVal,
       (∃ v, enforce_policy_body r = Except.ok v ∧ enforce_policy r = (v, []))
       ∨ (∃ e, enforce_policy_body r = Except.error e
            ∧ enforce_policy r =
                (failClosed, ["OPA policy enforcement failed: " ++ e])))
    ∧ (∀ es : List (String × PyVal),
       dictGet es "result" = Option.none →
       (enforce_policy (Except.ok (PyVal.dict es))).1 = PyVal.dict []
       ∧ pyval_get (PyVal.dict []) "allow" (PyVal.bool false) =
           Except.ok (PyVal.bool false)
       ∧ truthy (PyVal.bool false) = false)
    ∧ (∀ (env : CreateEnv) (u : UserModel) (a : PyVal),
       pyval_get (enforce_policy env.opaResponse).1 "allow" (PyVal.bool false)
         = Except.ok a →
       (CallTag.entraCreate ∈ (provision_user env u).calls ↔ truthy a = true)) := by
  refine ⟨?_, ?_, ?_⟩
  · intro r
    cases hb : enforce_policy_body r with
    | error e => exact Or.inr ⟨e, rfl, by simp [enforce_policy, hb]⟩
    | ok v => exact Or.inl ⟨v, rfl, by simp [enforce_policy, hb]⟩
  · intro es h
    refine ⟨?_, rfl, rfl⟩
    simp [enforce_policy, enforce_policy_body, pyval_get, h]
  · intro env u a hA
    cases hT : truthy a with
    | false =>
      cases hR : pyval_get (enforce_policy env.opaResponse).1 "reason"
          (PyVal.str "Policy Violation") with
      | error e =>
          simp only [provision_user, hA, hT, hR]
          simp
      | ok rr =>
          simp only [provision_user, hA, hT, hR]
          simp
    | true =>
      cases hE : env.entraCall with
      | error e =>
          simp only [provision_user, hA, hT, hE]
          simp
      | ok p =>
        cases hW : env.awsCall with
        | error e =>
            simp only [provision_user, hA, hT, hE, hW]
            simp
        | ok w =>
          cases hS : env.sailCall with
          | error e =>
              simp only [provision_user, hA, hT, hE, hW, hS]
              simp
          | ok s =>
              simp only [provision_user, hA, hT, hE, hW, hS]
              simp

/-- Witness for the amended C10 theorem: at the `allow = 1` environment the
orchestrator proceeds iff `1` is truthy (it is). -/
theorem enforce_policy_total_amended_witness :
    CallTag.entraCreate ∈ (provision_user envTruthyOne u0).calls
      ↔ truthy (PyVal.int 1) = true :=
  enforce_policy_total_amended.2.2 envTruthyOne u0 (PyVal.int 1) rfl

end IdentityAgent
